import Mathlib

/-!
Verification development for the hall-booking-system server actions.

Shallow embedding of `app/actions/bookings.ts`, `app/actions/halls.ts`,
`app/actions/food-items.ts`, `app/actions/themes.ts`, `app/actions/test.ts`
and `lib/validations/booking.ts`.

Conventions of the embedding:
- The prisma store is a `Store` of row lists; `findFirst`/`findUnique` become
  `List.find?`, `count` becomes `List.countP`, `findMany` becomes
  `List.filter` plus `List.mergeSort` for the `orderBy` clauses, `update`
  maps the row with the matching unique id, `aggregate _sum` returns
  `Option Int` (SQL SUM over no rows is NULL).
- A JavaScript `Date` is a `Nat` of milliseconds since the epoch (UTC);
  `Date.prototype.setHours(h, m, s, ms)` keeps the calendar day and replaces
  the time of day, mutating the object and returning the new timestamp.
- Nondeterministic data (generated row ids, `new Date()` for `createdAt`,
  the `Math.random` suffix inside `generateBookingNumber`) are parameters.
- `fault : Option String` models one of the action's store operations
  throwing an `Error` with that message.  Every action of the four main
  files wraps its body in try/catch; the two helpers of `test.ts` do not,
  so they are embedded in `Except String`, where `Except.error` is an
  exception propagating to the caller.
- Format checks performed inside the external validation library
  (`zod .email()`, `zod .url()`) are abstracted to simple character tests;
  the message of a thrown `ZodError` is abstracted to "Invalid input".
-/

namespace HallBooking

/-- Milliseconds in one day. -/
def msPerDay : Nat := 86400000

/-- Behaviour of `Date.prototype.setHours(h, m, sec, ms)`: the calendar day
is kept and the time of day is replaced. -/
def setHours (t : Nat) (h m sec ms : Nat) : Nat :=
  t / msPerDay * msPerDay + h * 3600000 + m * 60000 + sec * 1000 + ms

/-- The `timeSlot` enum of the booking schema: "Morning" | "Evening" | "Full Day". -/
inductive TimeSlot where
  | Morning
  | Evening
  | FullDay
deriving DecidableEq

/-- Booking `status` enum: PENDING | CONFIRMED | COMPLETED | CANCELLED. -/
inductive BookingStatus where
  | PENDING
  | CONFIRMED
  | COMPLETED
  | CANCELLED
deriving DecidableEq

/-- Booking `paymentStatus` enum: PENDING | PAID | PARTIAL | FAILED | REFUNDED. -/
inductive PaymentStatus where
  | PENDING
  | PAID
  | PARTIAL
  | FAILED
  | REFUNDED
deriving DecidableEq

/-- One entry of a booking's `selectedFoods` snapshot list. -/
structure SelectedFood where
  id : String
  name : String
  quantity : Int
  price : Int
deriving DecidableEq

/-- The optional `selectedTheme` snapshot of a booking. -/
structure SelectedTheme where
  id : String
  name : String
  price : Int
deriving DecidableEq

/-- The embedded `customerDetails` contact record of a booking. -/
structure CustomerDetails where
  name : String
  email : String
  phone : String
  address : String
deriving DecidableEq

/-- A Hall row. -/
structure Hall where
  id : String
  name : String
  description : Option String
  capacity : Int
  basePrice : Int
  images : List String
  amenities : List String
  isActive : Bool
  createdAt : Nat
deriving DecidableEq

/-- A FoodItem row. -/
structure FoodItem where
  id : String
  name : String
  category : String
  price : Int
  isVeg : Bool
  description : Option String
  image : Option String
  isAvailable : Bool
deriving DecidableEq

/-- A Theme row. -/
structure Theme where
  id : String
  name : String
  description : Option String
  price : Int
  images : List String
  isAvailable : Bool
deriving DecidableEq

/-- A Booking row. -/
structure Booking where
  id : String
  bookingNumber : String
  userId : String
  hallId : String
  eventDate : Nat
  timeSlot : TimeSlot
  guestCount : Int
  eventType : String
  selectedFoods : List SelectedFood
  selectedTheme : Option SelectedTheme
  totalAmount : Int
  customerDetails : CustomerDetails
  specialRequests : Option String
  status : BookingStatus
  paymentStatus : PaymentStatus
  paymentId : Option String
  createdAt : Nat
deriving DecidableEq

/-- The relational store behind the prisma client: one list per table. -/
structure Store where
  halls : List Hall
  foodItems : List FoodItem
  themes : List Theme
  bookings : List Booking
deriving DecidableEq

/-- Result envelope of every action: `{success: true, data|message}` or
`{success: false, error}`. -/
inductive ActionResult (α : Type) where
  | ok (data : α)
  | err (error : String)
deriving DecidableEq

/-! ### lib/validations/booking.ts -/

namespace Validations

/-- Abstraction of the external library's `.url()` format check: a URL
carries a scheme separator. -/
def urlLike (s : String) : Bool :=
  s.toList.contains ':'

/-- Abstraction of the external library's `.email()` format check. -/
def emailLike (s : String) : Bool :=
  s.toList.contains '@'

/-- Input shape accepted by `hallSchema`; `.default(...)` fields may be
omitted, hence `Option`. -/
structure HallInput where
  name : String
  description : Option String
  capacity : Int
  basePrice : Int
  images : List String
  amenities : Option (List String)
  isActive : Option Bool
deriving DecidableEq

/-- Checks of `hallSchema`: name ≥ 3 chars, capacity ≥ 50, basePrice ≥ 1000,
at least one image, every image a URL. -/
def hallSchemaCheck (i : HallInput) : Bool :=
  decide (3 ≤ i.name.length) &&
  decide (50 ≤ i.capacity) &&
  decide (1000 ≤ i.basePrice) &&
  decide (1 ≤ i.images.length) &&
  i.images.all urlLike

/-- Input shape accepted by `foodItemSchema`. -/
structure FoodItemInput where
  name : String
  category : String
  price : Int
  isVeg : Option Bool
  description : Option String
  image : Option String
  isAvailable : Option Bool
deriving DecidableEq

/-- Checks of `foodItemSchema`: name ≥ 2 chars, category in the enum,
price ≥ 1, optional image a URL. -/
def foodItemSchemaCheck (i : FoodItemInput) : Bool :=
  decide (2 ≤ i.name.length) &&
  ["Appetizer", "Main Course", "Dessert", "Beverage"].contains i.category &&
  decide (1 ≤ i.price) &&
  i.image.all urlLike

/-- Input shape accepted by `themeSchema`. -/
structure ThemeInput where
  name : String
  description : Option String
  price : Int
  images : List String
  isAvailable : Option Bool
deriving DecidableEq

/-- Checks of `themeSchema`: name ≥ 3 chars, price ≥ 1000, at least one
image, every image a URL. -/
def themeSchemaCheck (i : ThemeInput) : Bool :=
  decide (3 ≤ i.name.length) &&
  decide (1000 ≤ i.price) &&
  decide (1 ≤ i.images.length) &&
  i.images.all urlLike

/-- Input shape accepted by `bookingSchema`. -/
structure BookingInput where
  hallId : String
  eventDate : Nat
  timeSlot : TimeSlot
  guestCount : Int
  eventType : String
  selectedFoods : List SelectedFood
  selectedTheme : Option SelectedTheme
  customerDetails : CustomerDetails
  specialRequests : Option String
deriving DecidableEq

/-- Checks of `bookingSchema`.  `now` is the reference date of
`.min(new Date(), "Event date must be in future")`. -/
def bookingSchemaCheck (now : Nat) (i : BookingInput) : Bool :=
  decide (1 ≤ i.hallId.length) &&
  decide (now ≤ i.eventDate) &&
  decide (10 ≤ i.guestCount) && decide (i.guestCount ≤ 2000) &&
  decide (2 ≤ i.eventType.length) &&
  decide (1 ≤ i.selectedFoods.length) &&
  i.selectedFoods.all (fun f => decide (1 ≤ f.quantity)) &&
  decide (2 ≤ i.customerDetails.name.length) &&
  emailLike i.customerDetails.email &&
  decide (10 ≤ i.customerDetails.phone.length) &&
  decide (i.customerDetails.phone.length ≤ 15) &&
  decide (10 ≤ i.customerDetails.address.length)

/-- Checks of `hallSchema.partial()`: present fields keep their constraints. -/
structure HallPatch where
  name : Option String
  description : Option String
  capacity : Option Int
  basePrice : Option Int
  images : Option (List String)
  amenities : Option (List String)
  isActive : Option Bool
deriving DecidableEq

/-- Validation of a hall patch. -/
def hallPatchCheck (p : HallPatch) : Bool :=
  p.name.all (fun n => decide (3 ≤ n.length)) &&
  p.capacity.all (fun c => decide (50 ≤ c)) &&
  p.basePrice.all (fun b => decide (1000 ≤ b)) &&
  p.images.all (fun im => decide (1 ≤ im.length) && im.all urlLike)

/-- Checks of `foodItemSchema.partial()`. -/
structure FoodItemPatch where
  name : Option String
  category : Option String
  price : Option Int
  isVeg : Option Bool
  description : Option String
  image : Option String
  isAvailable : Option Bool
deriving DecidableEq

/-- Validation of a food-item patch. -/
def foodItemPatchCheck (p : FoodItemPatch) : Bool :=
  p.name.all (fun n => decide (2 ≤ n.length)) &&
  p.category.all (fun c => ["Appetizer", "Main Course", "Dessert", "Beverage"].contains c) &&
  p.price.all (fun q => decide (1 ≤ q)) &&
  p.image.all urlLike

/-- Checks of `themeSchema.partial()`. -/
structure ThemePatch where
  name : Option String
  description : Option String
  price : Option Int
  images : Option (List String)
  isAvailable : Option Bool
deriving DecidableEq

/-- Validation of a theme patch. -/
def themePatchCheck (p : ThemePatch) : Bool :=
  p.name.all (fun n => decide (3 ≤ n.length)) &&
  p.price.all (fun q => decide (1000 ≤ q)) &&
  p.images.all (fun im => decide (1 ≤ im.length) && im.all urlLike)

end Validations

/-! ### app/actions/halls.ts -/

namespace Halls

open Validations

/-- Rows of `prisma.hall.findMany({orderBy: {createdAt: "desc"}})`. -/
def sortByCreatedAtDesc (l : List Hall) : List Hall :=
  l.mergeSort (fun a b => decide (b.createdAt ≤ a.createdAt))

/-- Action `getActiveHalls`: active halls, newest first. -/
def getActiveHalls (fault : Option String) (s : Store) : ActionResult (List Hall) :=
  match fault with
  | some _ => ActionResult.err "Failed to fetch halls"
  | none => ActionResult.ok (sortByCreatedAtDesc (s.halls.filter (fun h => h.isActive)))

/-- Date and slot of a booking, the projection embedded by `getHallById`. -/
structure BookedSlot where
  eventDate : Nat
  timeSlot : TimeSlot
deriving DecidableEq

/-- Action `getHallById`: the hall plus the dates and slots of its
CONFIRMED/PENDING bookings. -/
def getHallById (fault : Option String) (id : String) (s : Store) :
    ActionResult (Hall × List BookedSlot) :=
  match fault with
  | some _ => ActionResult.err "Failed to fetch hall details"
  | none =>
    match s.halls.find? (fun h => h.id == id) with
    | none => ActionResult.err "Hall not found"
    | some hall =>
      ActionResult.ok (hall,
        (s.bookings.filter (fun b =>
            b.hallId == id &&
            (b.status == BookingStatus.CONFIRMED || b.status == BookingStatus.PENDING))).map
          (fun b => { eventDate := b.eventDate, timeSlot := b.timeSlot }))

/-- Action `getAllHalls` (admin): every hall, newest first. -/
def getAllHalls (fault : Option String) (s : Store) : ActionResult (List Hall) :=
  match fault with
  | some _ => ActionResult.err "Failed to fetch halls"
  | none => ActionResult.ok (sortByCreatedAtDesc s.halls)

/-- Action `createHall`: validate with `hallSchema`, insert the row.
`newId` is the generated row id, `now` the row's `createdAt`. -/
def createHall (fault : Option String) (newId : String) (now : Nat)
    (input : HallInput) (s : Store) : ActionResult Hall × Store :=
  if hallSchemaCheck input then
    match fault with
    | some msg => (ActionResult.err msg, s)
    | none =>
      let hall : Hall :=
        { id := newId, name := input.name, description := input.description,
          capacity := input.capacity, basePrice := input.basePrice,
          images := input.images, amenities := input.amenities.getD [],
          isActive := input.isActive.getD true, createdAt := now }
      (ActionResult.ok hall, { s with halls := s.halls ++ [hall] })
  else
    -- `hallSchema.parse` throws a ZodError; the catch surfaces its message
    (ActionResult.err "Invalid input", s)

/-- Application of a validated `hallSchema.partial()` patch to a row:
absent fields are `undefined` in the update data and stay unchanged. -/
def applyHallPatch (p : HallPatch) (h : Hall) : Hall :=
  { h with
    name := p.name.getD h.name,
    description := match p.description with
      | some d => some d
      | none => h.description,
    capacity := p.capacity.getD h.capacity,
    basePrice := p.basePrice.getD h.basePrice,
    images := p.images.getD h.images,
    amenities := p.amenities.getD h.amenities,
    isActive := p.isActive.getD h.isActive }

/-- Action `updateHall`: validate the patch, update the row by id. -/
def updateHall (fault : Option String) (id : String) (input : HallPatch) (s : Store) :
    ActionResult Hall × Store :=
  if hallPatchCheck input then
    match fault with
    | some msg => (ActionResult.err msg, s)
    | none =>
      match s.halls.find? (fun h => h.id == id) with
      | none =>
        -- prisma.hall.update throws when no row has this id; the catch
        -- surfaces the message of that error
        (ActionResult.err "Record to update not found.", s)
      | some hall =>
        (ActionResult.ok (applyHallPatch input hall),
          { s with halls := s.halls.map (fun h => if h.id == id then applyHallPatch input h else h) })
  else
    (ActionResult.err "Invalid input", s)

/-- Action `deleteHall`: blocked while the hall has CONFIRMED/PENDING
bookings, otherwise the row is deleted. -/
def deleteHall (fault : Option String) (id : String) (s : Store) :
    ActionResult String × Store :=
  match fault with
  | some _ => (ActionResult.err "Failed to delete hall", s)
  | none =>
    let bookingsCount := s.bookings.countP (fun b =>
      b.hallId == id &&
      (b.status == BookingStatus.CONFIRMED || b.status == BookingStatus.PENDING))
    if bookingsCount > 0 then
      (ActionResult.err "Cannot delete hall with active bookings. Mark as inactive instead.", s)
    else if (s.halls.find? (fun h => h.id == id)).isSome then
      (ActionResult.ok "Hall deleted successfully",
        { s with halls := s.halls.filter (fun h => !(h.id == id)) })
    else
      -- prisma.hall.delete throws when no row has this id; the catch
      -- returns the generic message
      (ActionResult.err "Failed to delete hall", s)

/-- Action `toggleHallStatus`: flip `isActive` of the hall. -/
def toggleHallStatus (fault : Option String) (id : String) (s : Store) :
    ActionResult Hall × Store :=
  match fault with
  | some _ => (ActionResult.err "Failed to update hall status", s)
  | none =>
    match s.halls.find? (fun h => h.id == id) with
    | none => (ActionResult.err "Hall not found", s)
    | some hall =>
      (ActionResult.ok { hall with isActive := !hall.isActive },
        { s with halls := s.halls.map (fun h =>
            if h.id == id then { h with isActive := !hall.isActive } else h) })

/-- The `findFirst` where-clause of `checkHallAvailability`: same hall, event
date within the day window, CONFIRMED/PENDING status, and the time-slot
disjunction (the requested slot, "Full Day", and — when "Full Day" is
requested — also "Morning" and "Evening"). -/
def availabilityWhere (hallId : String) (startOfDay endOfDay : Nat)
    (timeSlot : TimeSlot) (b : Booking) : Bool :=
  b.hallId == hallId &&
  (decide (startOfDay ≤ b.eventDate) && decide (b.eventDate ≤ endOfDay)) &&
  (b.status == BookingStatus.CONFIRMED || b.status == BookingStatus.PENDING) &&
  (b.timeSlot == timeSlot || b.timeSlot == TimeSlot.FullDay ||
    (timeSlot == TimeSlot.FullDay &&
      (b.timeSlot == TimeSlot.Morning || b.timeSlot == TimeSlot.Evening)))

/-- The conflicting-booking query of `checkHallAvailability`: `startOfDay`
and `endOfDay` are computed on copies of the event date. -/
def checkAvailabilityQuery (s : Store) (hallId : String) (eventDate : Nat)
    (timeSlot : TimeSlot) : Option Booking :=
  let startOfDay := setHours eventDate 0 0 0 0
  let endOfDay := setHours eventDate 23 59 59 999
  s.bookings.find? (availabilityWhere hallId startOfDay endOfDay timeSlot)

/-- Payload of `checkHallAvailability`: `{success: true, isAvailable, message}`. -/
structure AvailabilityInfo where
  isAvailable : Bool
  message : String
deriving DecidableEq

/-- Action `checkHallAvailability`. -/
def checkHallAvailability (fault : Option String) (hallId : String)
    (eventDate : Nat) (timeSlot : TimeSlot) (s : Store) :
    ActionResult AvailabilityInfo :=
  match fault with
  | some _ => ActionResult.err "Failed to check availability"
  | none =>
    match checkAvailabilityQuery s hallId eventDate timeSlot with
    | some _ =>
      ActionResult.ok { isAvailable := false, message := "Hall is already booked for this date and time" }
    | none =>
      ActionResult.ok { isAvailable := true, message := "Hall is available" }

end Halls

/-! ### app/actions/bookings.ts -/

namespace Bookings

open Validations

/-- Helper `calculateTotalAmount`: hall base price plus the food lines plus
the optional theme price (`selectedTheme?.price || 0`). -/
def calculateTotalAmount (hallBasePrice : Int) (selectedFoods : List SelectedFood)
    (selectedTheme : Option SelectedTheme) : Int :=
  let foodTotal := selectedFoods.foldl (fun sum item => sum + item.quantity * item.price) 0
  let themePrice := match selectedTheme with
    | some t => t.price
    | none => 0
  hallBasePrice + foodTotal + themePrice

/-- Rows of `prisma.booking.findMany({orderBy: {createdAt: "desc"}})`. -/
def sortByCreatedAtDesc (l : List Booking) : List Booking :=
  l.mergeSort (fun a b => decide (b.createdAt ≤ a.createdAt))

/-- The `findFirst` where-clause of the availability check inside
`createBooking`: same hall, event date within the `gte`/`lte` bounds,
CONFIRMED/PENDING status, and the `OR` list over time slots (the requested
slot, "Full Day", and — when "Full Day" is requested — also "Morning" and
"Evening"). -/
def availabilityWhere (hallId : String) (gteBound lteBound : Nat)
    (timeSlot : TimeSlot) (b : Booking) : Bool :=
  b.hallId == hallId &&
  (decide (gteBound ≤ b.eventDate) && decide (b.eventDate ≤ lteBound)) &&
  (b.status == BookingStatus.CONFIRMED || b.status == BookingStatus.PENDING) &&
  (b.timeSlot == timeSlot || b.timeSlot == TimeSlot.FullDay ||
    (timeSlot == TimeSlot.FullDay &&
      (b.timeSlot == TimeSlot.Morning || b.timeSlot == TimeSlot.Evening)))

/-- The conflicting-booking query of `createBooking`.  The two bounds are
produced by `validated.eventDate.setHours(...)`, which mutates the date in
place, so the `lte` bound is computed from the date already set to midnight
(the calendar day is unchanged). -/
def createBookingAvailability (s : Store) (hallId : String) (eventDate : Nat)
    (timeSlot : TimeSlot) : Option Booking :=
  let gteBound := setHours eventDate 0 0 0 0
  let lteBound := setHours (setHours eventDate 0 0 0 0) 23 59 59 999
  s.bookings.find? (availabilityWhere hallId gteBound lteBound timeSlot)

/-- Action `createBooking`.  `newId` is the generated row id and
`bookingNumber` the result of `generateBookingNumber()` (current date plus a
random 4-digit suffix, a parameter here).  After the availability check the
validated event date has been mutated twice by `setHours` and the mutated
value — 23:59:59.999 of the event day — is what `prisma.booking.create`
persists. -/
def createBooking (fault : Option String) (now : Nat)
    (newId bookingNumber userId : String) (input : BookingInput) (s : Store) :
    ActionResult Booking × Store :=
  if bookingSchemaCheck now input then
    match fault with
    | some msg => (ActionResult.err msg, s)
    | none =>
      match createBookingAvailability s input.hallId input.eventDate input.timeSlot with
      | some _ => (ActionResult.err "Hall is not available for selected date and time", s)
      | none =>
        match s.halls.find? (fun h => h.id == input.hallId) with
        | none => (ActionResult.err "Hall not found", s)
        | some hall =>
          let totalAmount := calculateTotalAmount hall.basePrice input.selectedFoods input.selectedTheme
          let booking : Booking :=
            { id := newId, bookingNumber := bookingNumber, userId := userId,
              hallId := input.hallId,
              eventDate := setHours (setHours input.eventDate 0 0 0 0) 23 59 59 999,
              timeSlot := input.timeSlot, guestCount := input.guestCount,
              eventType := input.eventType, selectedFoods := input.selectedFoods,
              selectedTheme := input.selectedTheme, totalAmount := totalAmount,
              customerDetails := input.customerDetails,
              specialRequests := input.specialRequests,
              status := BookingStatus.PENDING, paymentStatus := PaymentStatus.PENDING,
              paymentId := none, createdAt := now }
          (ActionResult.ok booking, { s with bookings := s.bookings ++ [booking] })
  else
    -- `bookingSchema.parse` throws a ZodError; the catch surfaces its message
    (ActionResult.err "Invalid input", s)

/-- Action `getMyBookings`: the user's bookings, newest first (the joined
hall name/images projection is not modelled). -/
def getMyBookings (fault : Option String) (userId : String) (s : Store) :
    ActionResult (List Booking) :=
  match fault with
  | some _ => ActionResult.err "Failed to fetch bookings"
  | none => ActionResult.ok (sortByCreatedAtDesc (s.bookings.filter (fun b => b.userId == userId)))

/-- Action `getBookingById` (the joined hall/user projections are not
modelled; the User table is external). -/
def getBookingById (fault : Option String) (id : String) (s : Store) :
    ActionResult Booking :=
  match fault with
  | some _ => ActionResult.err "Failed to fetch booking"
  | none =>
    match s.bookings.find? (fun b => b.id == id) with
    | none => ActionResult.err "Booking not found"
    | some booking => ActionResult.ok booking

/-- Action `getAllBookings` (admin): every booking, newest first. -/
def getAllBookings (fault : Option String) (s : Store) : ActionResult (List Booking) :=
  match fault with
  | some _ => ActionResult.err "Failed to fetch bookings"
  | none => ActionResult.ok (sortByCreatedAtDesc s.bookings)

/-- Action `updateBookingStatus` (admin): set `status`. -/
def updateBookingStatus (fault : Option String) (id : String)
    (status : BookingStatus) (s : Store) : ActionResult Booking × Store :=
  match fault with
  | some _ => (ActionResult.err "Failed to update booking status", s)
  | none =>
    match s.bookings.find? (fun b => b.id == id) with
    | none =>
      -- prisma.booking.update throws when no row has this id; the catch
      -- returns the generic message
      (ActionResult.err "Failed to update booking status", s)
    | some b0 =>
      (ActionResult.ok { b0 with status := status },
        { s with bookings := s.bookings.map (fun b =>
            if b.id == id then { b with status := status } else b) })

/-- Update data of `updatePaymentStatus`: the new payment status, the
optional payment id (absent means `undefined`, leaving the column
unchanged), and the conditional spread that adds `status: "CONFIRMED"`
exactly when the new payment status is PAID. -/
def applyPaymentUpdate (paymentStatus : PaymentStatus) (paymentId : Option String)
    (b : Booking) : Booking :=
  { b with
    paymentStatus := paymentStatus,
    paymentId := match paymentId with
      | some p => some p
      | none => b.paymentId,
    status := if paymentStatus == PaymentStatus.PAID then BookingStatus.CONFIRMED else b.status }

/-- Action `updatePaymentStatus` (after payment). -/
def updatePaymentStatus (fault : Option String) (id : String)
    (paymentStatus : PaymentStatus) (paymentId : Option String) (s : Store) :
    ActionResult Booking × Store :=
  match fault with
  | some _ => (ActionResult.err "Failed to update payment status", s)
  | none =>
    match s.bookings.find? (fun b => b.id == id) with
    | none =>
      -- prisma.booking.update throws when no row has this id; the catch
      -- returns the generic message
      (ActionResult.err "Failed to update payment status", s)
    | some b0 =>
      (ActionResult.ok (applyPaymentUpdate paymentStatus paymentId b0),
        { s with bookings := s.bookings.map (fun b =>
            if b.id == id then applyPaymentUpdate paymentStatus paymentId b else b) })

/-- Update data of `cancelBooking`: status CANCELLED and `specialRequests`
overwritten; an empty reason string is falsy in JS and falls back to
"Cancelled by user". -/
def applyCancel (reason : Option String) (b : Booking) : Booking :=
  { b with
    status := BookingStatus.CANCELLED,
    specialRequests := some (match reason with
      | some r => if r.isEmpty then "Cancelled by user" else r ++ " (Cancellation reason)"
      | none => "Cancelled by user") }

/-- Action `cancelBooking`. -/
def cancelBooking (fault : Option String) (id : String) (reason : Option String)
    (s : Store) : ActionResult Booking × Store :=
  match fault with
  | some _ => (ActionResult.err "Failed to cancel booking", s)
  | none =>
    match s.bookings.find? (fun b => b.id == id) with
    | none => (ActionResult.err "Failed to cancel booking", s)
    | some b0 =>
      (ActionResult.ok (applyCancel reason b0),
        { s with bookings := s.bookings.map (fun b =>
            if b.id == id then applyCancel reason b else b) })

/-- Result of `prisma.booking.aggregate({where: {paymentStatus: "PAID"},
_sum: {totalAmount: true}})`: SQL SUM over no rows is NULL. -/
def bookingAggregateSum (bs : List Booking) : Option Int :=
  let matched := bs.filter (fun b => b.paymentStatus == PaymentStatus.PAID)
  if matched.isEmpty then none
  else some ((matched.map (fun b => b.totalAmount)).foldl (· + ·) 0)

/-- Payload of `getBookingStats`. -/
structure BookingStats where
  totalBookings : Nat
  confirmedBookings : Nat
  pendingBookings : Nat
  totalRevenue : Int
deriving DecidableEq

/-- Action `getBookingStats` (admin dashboard); `_sum.totalAmount || 0`
maps the NULL aggregate to 0. -/
def getBookingStats (fault : Option String) (s : Store) : ActionResult BookingStats :=
  match fault with
  | some _ => ActionResult.err "Failed to fetch statistics"
  | none =>
    ActionResult.ok
      { totalBookings := s.bookings.length,
        confirmedBookings := (s.bookings.filter (fun b => b.status == BookingStatus.CONFIRMED)).length,
        pendingBookings := (s.bookings.filter (fun b => b.status == BookingStatus.PENDING)).length,
        totalRevenue := (bookingAggregateSum s.bookings).getD 0 }

end Bookings

/-! ### app/actions/food-items.ts -/

namespace FoodItems

open Validations

/-- Rows of `findMany({orderBy: [{category: "asc"}, {name: "asc"}]})`. -/
def sortByCategoryName (l : List FoodItem) : List FoodItem :=
  l.mergeSort (fun a b =>
    decide (a.category < b.category) ||
    (a.category == b.category && decide (a.name ≤ b.name)))

/-- Rows of `findMany({orderBy: {name: "asc"}})`. -/
def sortByName (l : List FoodItem) : List FoodItem :=
  l.mergeSort (fun a b => decide (a.name ≤ b.name))

/-- Action `getAvailableFoodItems` (customers). -/
def getAvailableFoodItems (fault : Option String) (s : Store) :
    ActionResult (List FoodItem) :=
  match fault with
  | some _ => ActionResult.err "Failed to fetch food items"
  | none => ActionResult.ok (sortByCategoryName (s.foodItems.filter (fun i => i.isAvailable)))

/-- Action `getAllFoodItems` (admin). -/
def getAllFoodItems (fault : Option String) (s : Store) :
    ActionResult (List FoodItem) :=
  match fault with
  | some _ => ActionResult.err "Failed to fetch food items"
  | none => ActionResult.ok (sortByCategoryName s.foodItems)

/-- Action `getFoodItemsByCategory`. -/
def getFoodItemsByCategory (fault : Option String) (category : String) (s : Store) :
    ActionResult (List FoodItem) :=
  match fault with
  | some _ => ActionResult.err "Failed to fetch food items"
  | none =>
    ActionResult.ok (sortByName (s.foodItems.filter (fun i =>
      i.category == category && i.isAvailable)))

/-- Action `createFoodItem` (admin): validate with `foodItemSchema`, insert. -/
def createFoodItem (fault : Option String) (newId : String)
    (input : FoodItemInput) (s : Store) : ActionResult FoodItem × Store :=
  if foodItemSchemaCheck input then
    match fault with
    | some msg => (ActionResult.err msg, s)
    | none =>
      let item : FoodItem :=
        { id := newId, name := input.name, category := input.category,
          price := input.price, isVeg := input.isVeg.getD true,
          description := input.description, image := input.image,
          isAvailable := input.isAvailable.getD true }
      (ActionResult.ok item, { s with foodItems := s.foodItems ++ [item] })
  else
    (ActionResult.err "Invalid input", s)

/-- Application of a validated `foodItemSchema.partial()` patch to a row. -/
def applyFoodItemPatch (p : FoodItemPatch) (i : FoodItem) : FoodItem :=
  { i with
    name := p.name.getD i.name,
    category := p.category.getD i.category,
    price := p.price.getD i.price,
    isVeg := p.isVeg.getD i.isVeg,
    description := match p.description with
      | some d => some d
      | none => i.description,
    image := match p.image with
      | some im => some im
      | none => i.image,
    isAvailable := p.isAvailable.getD i.isAvailable }

/-- Action `updateFoodItem` (admin). -/
def updateFoodItem (fault : Option String) (id : String) (input : FoodItemPatch)
    (s : Store) : ActionResult FoodItem × Store :=
  if foodItemPatchCheck input then
    match fault with
    | some msg => (ActionResult.err msg, s)
    | none =>
      match s.foodItems.find? (fun i => i.id == id) with
      | none => (ActionResult.err "Record to update not found.", s)
      | some item =>
        (ActionResult.ok (applyFoodItemPatch input item),
          { s with foodItems := s.foodItems.map (fun i =>
              if i.id == id then applyFoodItemPatch input i else i) })
  else
    (ActionResult.err "Invalid input", s)

/-- Action `deleteFoodItem` (admin). -/
def deleteFoodItem (fault : Option String) (id : String) (s : Store) :
    ActionResult String × Store :=
  match fault with
  | some _ => (ActionResult.err "Failed to delete food item", s)
  | none =>
    if (s.foodItems.find? (fun i => i.id == id)).isSome then
      (ActionResult.ok "Food item deleted successfully",
        { s with foodItems := s.foodItems.filter (fun i => !(i.id == id)) })
    else
      (ActionResult.err "Failed to delete food item", s)

/-- Action `toggleFoodItemAvailability`: flip `isAvailable` of the item. -/
def toggleFoodItemAvailability (fault : Option String) (id : String) (s : Store) :
    ActionResult FoodItem × Store :=
  match fault with
  | some _ => (ActionResult.err "Failed to update availability", s)
  | none =>
    match s.foodItems.find? (fun i => i.id == id) with
    | none => (ActionResult.err "Food item not found", s)
    | some item =>
      (ActionResult.ok { item with isAvailable := !item.isAvailable },
        { s with foodItems := s.foodItems.map (fun i =>
            if i.id == id then { i with isAvailable := !item.isAvailable } else i) })

end FoodItems

/-! ### app/actions/themes.ts -/

namespace Themes

open Validations

/-- Rows of `findMany({orderBy: {name: "asc"}})`. -/
def sortByName (l : List Theme) : List Theme :=
  l.mergeSort (fun a b => decide (a.name ≤ b.name))

/-- Action `getAvailableThemes` (customers). -/
def getAvailableThemes (fault : Option String) (s : Store) :
    ActionResult (List Theme) :=
  match fault with
  | some _ => ActionResult.err "Failed to fetch themes"
  | none => ActionResult.ok (sortByName (s.themes.filter (fun t => t.isAvailable)))

/-- Action `getAllThemes` (admin). -/
def getAllThemes (fault : Option String) (s : Store) : ActionResult (List Theme) :=
  match fault with
  | some _ => ActionResult.err "Failed to fetch themes"
  | none => ActionResult.ok (sortByName s.themes)

/-- Action `getThemeById`. -/
def getThemeById (fault : Option String) (id : String) (s : Store) :
    ActionResult Theme :=
  match fault with
  | some _ => ActionResult.err "Failed to fetch theme"
  | none =>
    match s.themes.find? (fun t => t.id == id) with
    | none => ActionResult.err "Theme not found"
    | some theme => ActionResult.ok theme

/-- Action `createTheme` (admin): validate with `themeSchema`, insert. -/
def createTheme (fault : Option String) (newId : String) (input : ThemeInput)
    (s : Store) : ActionResult Theme × Store :=
  if themeSchemaCheck input then
    match fault with
    | some msg => (ActionResult.err msg, s)
    | none =>
      let theme : Theme :=
        { id := newId, name := input.name, description := input.description,
          price := input.price, images := input.images,
          isAvailable := input.isAvailable.getD true }
      (ActionResult.ok theme, { s with themes := s.themes ++ [theme] })
  else
    (ActionResult.err "Invalid input", s)

/-- Application of a validated `themeSchema.partial()` patch to a row. -/
def applyThemePatch (p : ThemePatch) (t : Theme) : Theme :=
  { t with
    name := p.name.getD t.name,
    description := match p.description with
      | some d => some d
      | none => t.description,
    price := p.price.getD t.price,
    images := p.images.getD t.images,
    isAvailable := p.isAvailable.getD t.isAvailable }

/-- Action `updateTheme` (admin). -/
def updateTheme (fault : Option String) (id : String) (input : ThemePatch)
    (s : Store) : ActionResult Theme × Store :=
  if themePatchCheck input then
    match fault with
    | some msg => (ActionResult.err msg, s)
    | none =>
      match s.themes.find? (fun t => t.id == id) with
      | none => (ActionResult.err "Record to update not found.", s)
      | some theme =>
        (ActionResult.ok (applyThemePatch input theme),
          { s with themes := s.themes.map (fun t =>
              if t.id == id then applyThemePatch input t else t) })
  else
    (ActionResult.err "Invalid input", s)

/-- Action `deleteTheme` (admin). -/
def deleteTheme (fault : Option String) (id : String) (s : Store) :
    ActionResult String × Store :=
  match fault with
  | some _ => (ActionResult.err "Failed to delete theme", s)
  | none =>
    if (s.themes.find? (fun t => t.id == id)).isSome then
      (ActionResult.ok "Theme deleted successfully",
        { s with themes := s.themes.filter (fun t => !(t.id == id)) })
    else
      (ActionResult.err "Failed to delete theme", s)

/-- Action `toggleThemeAvailability`: flip `isAvailable` of the theme. -/
def toggleThemeAvailability (fault : Option String) (id : String) (s : Store) :
    ActionResult Theme × Store :=
  match fault with
  | some _ => (ActionResult.err "Failed to update availability", s)
  | none =>
    match s.themes.find? (fun t => t.id == id) with
    | none => (ActionResult.err "Theme not found", s)
    | some theme =>
      (ActionResult.ok { theme with isAvailable := !theme.isAvailable },
        { s with themes := s.themes.map (fun t =>
            if t.id == id then { t with isAvailable := !theme.isAvailable } else t) })

end Themes

/-! ### app/actions/test.ts — no try/catch, no result envelope -/

namespace TestActions

/-- Helper `createTestHall`: inserts a fixed hall and returns the raw row.
There is no try/catch, so a throwing store operation propagates
(`Except.error`) to the caller. -/
def createTestHall (fault : Option String) (newId : String) (now : Nat)
    (s : Store) : Except String (Hall × Store) :=
  match fault with
  | some msg => Except.error msg
  | none =>
    let hall : Hall :=
      { id := newId, name := "Grand Ballroom",
        description := some "Spacious hall for 500+ guests",
        capacity := 500, basePrice := 50000,
        images := ["https://example.com/image1.jpg", "https://example.com/image2.jpg"],
        amenities := ["AC", "Parking", "Stage", "Sound System"],
        isActive := true, createdAt := now }
    Except.ok (hall, { s with halls := s.halls ++ [hall] })

/-- Helper `getAllHalls` of test.ts: raw list of active halls, newest first;
again no try/catch and no envelope. -/
def getAllHalls (fault : Option String) (s : Store) : Except String (List Hall) :=
  match fault with
  | some msg => Except.error msg
  | none => Except.ok (Halls.sortByCreatedAtDesc (s.halls.filter (fun h => h.isActive)))

end TestActions

/-! ### Helper lemmas -/

/-- Applying `setHours 23 59 59 999` after `setHours 0 0 0 0` lands on the
same value as applying it to the original date: the calendar day is kept. -/
theorem setHours_end_shift (e : Nat) :
    setHours (setHours e 0 0 0 0) 23 59 59 999 = setHours e 23 59 59 999 := by
  simp only [setHours, msPerDay]
  omega

/-- Membership in the day window `[setHours e 0 0 0 0, setHours e 23 59 59 999]`
is exactly equality of calendar days. -/
theorem day_window_iff (e x : Nat) :
    (setHours e 0 0 0 0 ≤ x ∧ x ≤ setHours e 23 59 59 999) ↔
      x / msPerDay = e / msPerDay := by
  simp only [setHours, msPerDay]
  omega

/-- The `OR` list over time slots, as a proposition. -/
theorem slot_disjunction_iff (r t : TimeSlot) :
    (t == r || t == TimeSlot.FullDay ||
      (r == TimeSlot.FullDay && (t == TimeSlot.Morning || t == TimeSlot.Evening))) = true ↔
      (r = TimeSlot.FullDay ∨ t = TimeSlot.FullDay ∨ t = r) := by
  cases r <;> cases t <;> decide

/-- The `status: {in: ["CONFIRMED", "PENDING"]}` filter, as a proposition. -/
theorem status_disjunction_iff (st : BookingStatus) :
    (st == BookingStatus.CONFIRMED || st == BookingStatus.PENDING) = true ↔
      (st = BookingStatus.CONFIRMED ∨ st = BookingStatus.PENDING) := by
  cases st <;> decide

/-- The where-clause of the availability check inside `createBooking`, as a
proposition: same hall, same calendar day, active status, overlapping slot. -/
theorem bookingWhere_iff (hid : String) (e : Nat) (slot : TimeSlot) (b : Booking) :
    Bookings.availabilityWhere hid (setHours e 0 0 0 0)
        (setHours (setHours e 0 0 0 0) 23 59 59 999) slot b = true ↔
      (b.hallId = hid ∧ b.eventDate / msPerDay = e / msPerDay ∧
        (b.status = BookingStatus.CONFIRMED ∨ b.status = BookingStatus.PENDING) ∧
        (slot = TimeSlot.FullDay ∨ b.timeSlot = TimeSlot.FullDay ∨ b.timeSlot = slot)) := by
  rw [setHours_end_shift]
  simp only [Bookings.availabilityWhere, Bool.and_eq_true, decide_eq_true_eq, beq_iff_eq,
    slot_disjunction_iff, status_disjunction_iff, day_window_iff]
  tauto

/-- Mapping a function that fixes every element failing `p` keeps the first
match of `find? p`, now with the function applied. -/
theorem find?_map_found {α : Type} (p : α → Bool) (f : α → α) (l : List α) (a : α)
    (hfind : l.find? p = some a)
    (hfix : ∀ x, p x = false → f x = x)
    (hpa : p (f a) = true) :
    (l.map f).find? p = some (f a) := by
  induction l with
  | nil => simp at hfind
  | cons hd tl ih =>
    cases hph : p hd with
    | false =>
      rw [List.find?_cons_of_neg _ (by simp [hph])] at hfind
      simp only [List.map_cons]
      rw [hfix hd hph, List.find?_cons_of_neg _ (by simp [hph])]
      exact ih hfind
    | true =>
      rw [List.find?_cons_of_pos _ hph] at hfind
      injection hfind with h
      subst h
      simp only [List.map_cons]
      rw [List.find?_cons_of_pos _ hpa]

/-- Folding an addition over a list equals the sum of the mapped list. -/
theorem foldl_add_map {α : Type} (f : α → Int) (l : List α) :
    l.foldl (fun sum x => sum + f x) 0 = (l.map f).sum := by
  rw [List.sum_eq_foldl, List.foldl_map]

/-- Inversion of a successful `createBooking`: the validation passed, no
conflicting booking was found, the hall exists, and the returned booking is
the record built by the action, appended to the store. -/
theorem createBooking_ok_inversion (now : Nat) (newId bn userId : String)
    (input : Validations.BookingInput) (s s' : Store) (bk : Booking)
    (h : Bookings.createBooking none now newId bn userId input s = (ActionResult.ok bk, s')) :
    ∃ hall, s.halls.find? (fun x => x.id == input.hallId) = some hall ∧
      bk = { id := newId, bookingNumber := bn, userId := userId,
             hallId := input.hallId,
             eventDate := setHours (setHours input.eventDate 0 0 0 0) 23 59 59 999,
             timeSlot := input.timeSlot, guestCount := input.guestCount,
             eventType := input.eventType, selectedFoods := input.selectedFoods,
             selectedTheme := input.selectedTheme,
             totalAmount := Bookings.calculateTotalAmount hall.basePrice
               input.selectedFoods input.selectedTheme,
             customerDetails := input.customerDetails,
             specialRequests := input.specialRequests,
             status := BookingStatus.PENDING, paymentStatus := PaymentStatus.PENDING,
             paymentId := none, createdAt := now } ∧
      s' = { s with bookings := s.bookings ++ [bk] } := by
  unfold Bookings.createBooking at h
  cases hval : Validations.bookingSchemaCheck now input with
  | false => simp [hval] at h
  | true =>
    simp only [hval, if_true] at h
    cases havail : Bookings.createBookingAvailability s input.hallId input.eventDate
        input.timeSlot with
    | some b => rw [havail] at h; simp at h
    | none =>
      rw [havail] at h
      cases hhall : s.halls.find? (fun x => x.id == input.hallId) with
      | none => rw [hhall] at h; simp at h
      | some hall =>
        rw [hhall] at h
        simp only [Prod.mk.injEq, ActionResult.ok.injEq] at h
        obtain ⟨h1, h2⟩ := h
        subst h1
        exact ⟨hall, rfl, rfl, h2.symm⟩

/-! ### Concrete sample data used by the witnesses -/

namespace Samples

/-- Sample customer contact record. -/
def customer : CustomerDetails :=
  { name := "Asha Rao", email := "asha@example.com", phone := "9876543210",
    address := "12 MG Road, Bengaluru" }

/-- Sample food line: 2 × Paneer at 200. -/
def paneer : SelectedFood :=
  { id := "food-1", name := "Paneer Tikka", quantity := 2, price := 200 }

/-- Sample theme selection at 3000. -/
def royalTheme : SelectedTheme :=
  { id := "theme-1", name := "Royal Gold", price := 3000 }

/-- Sample hall with base price 50000. -/
def hallA : Hall :=
  { id := "hall-A", name := "Grand Ballroom", description := none, capacity := 500,
    basePrice := 50000, images := ["https://example.com/1.jpg"], amenities := [],
    isActive := true, createdAt := 0 }

/-- A moment during calendar day 3. -/
def day3 : Nat := 3 * msPerDay + 3600000

/-- Sample booking request: Morning of day 3 on hall-A, 2 × Paneer(200) and a
3000 theme. -/
def bookingInput : Validations.BookingInput :=
  { hallId := "hall-A", eventDate := day3, timeSlot := TimeSlot.Morning,
    guestCount := 100, eventType := "Wedding", selectedFoods := [paneer],
    selectedTheme := some royalTheme, customerDetails := customer,
    specialRequests := none }

/-- An existing PENDING "Full Day" booking on hall-A for day 3. -/
def fullDayBooking : Booking :=
  { id := "bk-1", bookingNumber := "BK202601010001", userId := "user-1",
    hallId := "hall-A", eventDate := 3 * msPerDay + 86399999,
    timeSlot := TimeSlot.FullDay, guestCount := 150, eventType := "Conference",
    selectedFoods := [paneer], selectedTheme := none, totalAmount := 50400,
    customerDetails := customer, specialRequests := none,
    status := BookingStatus.PENDING, paymentStatus := PaymentStatus.PENDING,
    paymentId := none, createdAt := 0 }

/-- Store with hall-A and the conflicting full-day booking. -/
def storeWithConflict : Store :=
  { halls := [hallA], foodItems := [], themes := [], bookings := [fullDayBooking] }

/-- Store with hall-A and no bookings. -/
def storeFree : Store :=
  { halls := [hallA], foodItems := [], themes := [], bookings := [] }

/-- The booking created by `createBooking` on `storeFree` with the sample
request. -/
def createdBooking : Booking :=
  { id := "bk-2", bookingNumber := "BK202601020002", userId := "user-2",
    hallId := "hall-A", eventDate := 3 * msPerDay + 86399999,
    timeSlot := TimeSlot.Morning, guestCount := 100, eventType := "Wedding",
    selectedFoods := [paneer], selectedTheme := some royalTheme,
    totalAmount := 53400, customerDetails := customer, specialRequests := none,
    status := BookingStatus.PENDING, paymentStatus := PaymentStatus.PENDING,
    paymentId := none, createdAt := 0 }

/-- A CANCELLED booking, for exercising the payment-status transition. -/
def cancelledBooking : Booking :=
  { fullDayBooking with id := "bk-9", status := BookingStatus.CANCELLED }

/-- Store containing only the cancelled booking. -/
def storeCancelled : Store :=
  { halls := [hallA], foodItems := [], themes := [], bookings := [cancelledBooking] }

/-- Sample hall with id e-1, for the toggle scenario. -/
def hallE : Hall := { hallA with id := "e-1" }

/-- Sample food item with id e-1. -/
def foodE : FoodItem :=
  { id := "e-1", name := "Gulab Jamun", category := "Dessert", price := 120,
    isVeg := true, description := none, image := none, isAvailable := true }

/-- Sample theme with id e-1. -/
def themeE : Theme :=
  { id := "e-1", name := "Pastel Dream", description := none, price := 4000,
    images := ["https://example.com/t.jpg"], isAvailable := false }

/-- Store holding one hall, one food item and one theme, each with id e-1. -/
def toggleStore : Store :=
  { halls := [hallE], foodItems := [foodE], themes := [themeE], bookings := [] }

end Samples

/-! ### Claims -/

/-- C2: for every successful `createBooking`, the persisted `totalAmount`
equals `hall.basePrice` plus the sum over `selectedFoods` of
`quantity × price` plus the selected theme price (0 when no theme). -/
theorem claim_C2_total_amount (now : Nat) (newId bn userId : String)
    (input : Validations.BookingInput) (s s' : Store) (bk : Booking)
    (h : Bookings.createBooking none now newId bn userId input s = (ActionResult.ok bk, s')) :
    ∃ hall, s.halls.find? (fun x => x.id == input.hallId) = some hall ∧
      bk.totalAmount = hall.basePrice +
        ((input.selectedFoods.map (fun f => f.quantity * f.price)).sum) +
        (match input.selectedTheme with
          | some t => t.price
          | none => 0) := by
  obtain ⟨hall, hhall, hbk, _⟩ := createBooking_ok_inversion now newId bn userId input s s' bk h
  refine ⟨hall, hhall, ?_⟩
  rw [hbk]
  show Bookings.calculateTotalAmount hall.basePrice input.selectedFoods input.selectedTheme = _
  unfold Bookings.calculateTotalAmount
  rw [foldl_add_map]

/-- C2 witness: the scenario basePrice 50000, food 2 × 200, theme 3000 gives
53400 on a concrete store. -/
theorem claim_C2_witness :
    ∃ hall, Samples.storeFree.halls.find? (fun x => x.id == Samples.bookingInput.hallId) = some hall ∧
      Samples.createdBooking.totalAmount = hall.basePrice +
        ((Samples.bookingInput.selectedFoods.map (fun f => f.quantity * f.price)).sum) +
        (match Samples.bookingInput.selectedTheme with
          | some t => t.price
          | none => 0) :=
  claim_C2_total_amount 0 "bk-2" "BK202601020002" "user-2" Samples.bookingInput
    Samples.storeFree
    { Samples.storeFree with bookings := [Samples.createdBooking] }
    Samples.createdBooking (by decide)

/-- C3: `updatePaymentStatus(id, "PAID")` on an existing booking sets the
payment status to PAID and the status to CONFIRMED, whatever the prior
status was. -/
theorem claim_C3_paid_confirms (id : String) (pid : Option String) (s : Store)
    (b0 : Booking) (hfind : s.bookings.find? (fun b => b.id == id) = some b0) :
    ∃ b, (Bookings.updatePaymentStatus none id PaymentStatus.PAID pid s).1 = ActionResult.ok b ∧
      b.paymentStatus = PaymentStatus.PAID ∧ b.status = BookingStatus.CONFIRMED := by
  simp only [Bookings.updatePaymentStatus, hfind]
  exact ⟨_, rfl, rfl, rfl⟩

/-- C3 witness: marking a CANCELLED booking PAID yields status CONFIRMED. -/
theorem claim_C3_witness :
    ∃ b, (Bookings.updatePaymentStatus none "bk-9" PaymentStatus.PAID (some "pay-1")
        Samples.storeCancelled).1 = ActionResult.ok b ∧
      b.paymentStatus = PaymentStatus.PAID ∧ b.status = BookingStatus.CONFIRMED :=
  claim_C3_paid_confirms "bk-9" (some "pay-1") Samples.storeCancelled
    Samples.cancelledBooking (by decide)

/-- C9: every successful `createBooking` persists an event date on the same
calendar day as the input event date but with the time of day set to
23:59:59.999, because the availability check mutated the validated date in
place before the insert. -/
theorem claim_C9_mutated_event_date (now : Nat) (newId bn userId : String)
    (input : Validations.BookingInput) (s s' : Store) (bk : Booking)
    (h : Bookings.createBooking none now newId bn userId input s = (ActionResult.ok bk, s')) :
    bk.eventDate / msPerDay = input.eventDate / msPerDay ∧
      bk.eventDate % msPerDay = 86399999 := by
  obtain ⟨hall, _, hbk, _⟩ := createBooking_ok_inversion now newId bn userId input s s' bk h
  rw [hbk]
  show (setHours (setHours input.eventDate 0 0 0 0) 23 59 59 999 / msPerDay = _ ∧
    setHours (setHours input.eventDate 0 0 0 0) 23 59 59 999 % msPerDay = _)
  simp only [setHours, msPerDay]
  omega

/-- C9 witness: the concrete successful booking lands on day 3 at
23:59:59.999 although the request was for 01:00 of day 3. -/
theorem claim_C9_witness :
    Samples.createdBooking.eventDate / msPerDay = Samples.bookingInput.eventDate / msPerDay ∧
      Samples.createdBooking.eventDate % msPerDay = 86399999 :=
  claim_C9_mutated_event_date 0 "bk-2" "BK202601020002" "user-2" Samples.bookingInput
    Samples.storeFree
    { Samples.storeFree with bookings := [Samples.createdBooking] }
    Samples.createdBooking (by decide)

/-- C10: `updatePaymentStatus` with a payment status other than PAID changes
only `paymentStatus` and `paymentId` of the addressed booking; `status` and
every other field stay as they were, and the rest of the store is framed. -/
theorem claim_C10_non_paid_frame (id : String) (p : PaymentStatus)
    (pid : Option String) (s : Store) (b0 : Booking)
    (hfind : s.bookings.find? (fun b => b.id == id) = some b0)
    (hp : p ≠ PaymentStatus.PAID) :
    ∃ b s', Bookings.updatePaymentStatus none id p pid s = (ActionResult.ok b, s') ∧
      b.paymentStatus = p ∧
      b.paymentId = (match pid with
        | some q => some q
        | none => b0.paymentId) ∧
      b.status = b0.status ∧ b.id = b0.id ∧ b.bookingNumber = b0.bookingNumber ∧
      b.userId = b0.userId ∧ b.hallId = b0.hallId ∧ b.eventDate = b0.eventDate ∧
      b.timeSlot = b0.timeSlot ∧ b.guestCount = b0.guestCount ∧
      b.eventType = b0.eventType ∧ b.selectedFoods = b0.selectedFoods ∧
      b.selectedTheme = b0.selectedTheme ∧ b.totalAmount = b0.totalAmount ∧
      b.customerDetails = b0.customerDetails ∧
      b.specialRequests = b0.specialRequests ∧ b.createdAt = b0.createdAt ∧
      s'.halls = s.halls ∧ s'.foodItems = s.foodItems ∧ s'.themes = s.themes ∧
      (∀ x ∈ s.bookings, x.id ≠ id → x ∈ s'.bookings) := by
  have hbeq : (p == PaymentStatus.PAID) = false := by
    cases p <;> simp_all
  simp only [Bookings.updatePaymentStatus, hfind]
  refine ⟨_, _, rfl, rfl, rfl, ?_, rfl, rfl, rfl, rfl, rfl, rfl, rfl, rfl, rfl,
    rfl, rfl, rfl, rfl, rfl, rfl, rfl, rfl, ?_⟩
  · show (if (p == PaymentStatus.PAID) = true then BookingStatus.CONFIRMED else b0.status) = b0.status
    rw [hbeq]
    simp
  · intro x hx hne
    have hxid : (x.id == id) = false := by
      simp [hne]
    refine List.mem_map.2 ⟨x, hx, ?_⟩
    simp [Bookings.applyPaymentUpdate, hxid]

/-- C10 witness: a REFUNDED update on the cancelled booking keeps its status
and all other fields. -/
theorem claim_C10_witness :
    ∃ b s', Bookings.updatePaymentStatus none "bk-9" PaymentStatus.REFUNDED none
        Samples.storeCancelled = (ActionResult.ok b, s') ∧
      b.paymentStatus = PaymentStatus.REFUNDED ∧
      b.paymentId = (match (none : Option String) with
        | some q => some q
        | none => Samples.cancelledBooking.paymentId) ∧
      b.status = Samples.cancelledBooking.status ∧
      b.id = Samples.cancelledBooking.id ∧
      b.bookingNumber = Samples.cancelledBooking.bookingNumber ∧
      b.userId = Samples.cancelledBooking.userId ∧
      b.hallId = Samples.cancelledBooking.hallId ∧
      b.eventDate = Samples.cancelledBooking.eventDate ∧
      b.timeSlot = Samples.cancelledBooking.timeSlot ∧
      b.guestCount = Samples.cancelledBooking.guestCount ∧
      b.eventType = Samples.cancelledBooking.eventType ∧
      b.selectedFoods = Samples.cancelledBooking.selectedFoods ∧
      b.selectedTheme = Samples.cancelledBooking.selectedTheme ∧
      b.totalAmount = Samples.cancelledBooking.totalAmount ∧
      b.customerDetails = Samples.cancelledBooking.customerDetails ∧
      b.specialRequests = Samples.cancelledBooking.specialRequests ∧
      b.createdAt = Samples.cancelledBooking.createdAt ∧
      s'.halls = Samples.storeCancelled.halls ∧
      s'.foodItems = Samples.storeCancelled.foodItems ∧
      s'.themes = Samples.storeCancelled.themes ∧
      (∀ x ∈ Samples.storeCancelled.bookings, x.id ≠ "bk-9" → x ∈ s'.bookings) :=
  claim_C10_non_paid_frame "bk-9" PaymentStatus.REFUNDED none Samples.storeCancelled
    Samples.cancelledBooking (by decide) (by decide)

/-- C1: a valid booking request overlapping an active (CONFIRMED/PENDING)
booking on the same hall and calendar day — where "Full Day" overlaps every
slot and "Morning"/"Evening" overlap only the same slot or "Full Day" — is
rejected with the availability error and creates no booking; with no such
overlap and an existing hall the request succeeds and appends the booking. -/
theorem claim_C1_overlap_rule (now : Nat) (newId bn userId : String)
    (input : Validations.BookingInput) (s : Store)
    (hval : Validations.bookingSchemaCheck now input = true) :
    ((∃ b ∈ s.bookings, b.hallId = input.hallId ∧
        b.eventDate / msPerDay = input.eventDate / msPerDay ∧
        (b.status = BookingStatus.CONFIRMED ∨ b.status = BookingStatus.PENDING) ∧
        (input.timeSlot = TimeSlot.FullDay ∨ b.timeSlot = TimeSlot.FullDay ∨
          b.timeSlot = input.timeSlot)) →
      Bookings.createBooking none now newId bn userId input s =
        (ActionResult.err "Hall is not available for selected date and time", s)) ∧
    ((¬ ∃ b ∈ s.bookings, b.hallId = input.hallId ∧
        b.eventDate / msPerDay = input.eventDate / msPerDay ∧
        (b.status = BookingStatus.CONFIRMED ∨ b.status = BookingStatus.PENDING) ∧
        (input.timeSlot = TimeSlot.FullDay ∨ b.timeSlot = TimeSlot.FullDay ∨
          b.timeSlot = input.timeSlot)) →
      ∀ hall, s.halls.find? (fun h => h.id == input.hallId) = some hall →
        ∃ bk, Bookings.createBooking none now newId bn userId input s =
          (ActionResult.ok bk, { s with bookings := s.bookings ++ [bk] })) := by
  constructor
  · rintro ⟨b, hb, hprops⟩
    have hsome : (Bookings.createBookingAvailability s input.hallId input.eventDate
        input.timeSlot).isSome = true := by
      rw [Bookings.createBookingAvailability, List.find?_isSome]
      exact ⟨b, hb, (bookingWhere_iff input.hallId input.eventDate input.timeSlot b).2 hprops⟩
    obtain ⟨b', hb'⟩ := Option.isSome_iff_exists.1 hsome
    unfold Bookings.createBooking
    simp only [hval, if_true, hb']
  · intro hnone hall hhall
    have h0 : Bookings.createBookingAvailability s input.hallId input.eventDate
        input.timeSlot = none := by
      rw [Bookings.createBookingAvailability, List.find?_eq_none]
      intro x hx hpx
      exact hnone ⟨x, hx,
        (bookingWhere_iff input.hallId input.eventDate input.timeSlot x).1 hpx⟩
    unfold Bookings.createBooking
    simp only [hval, if_true, h0, hhall]
    exact ⟨_, rfl⟩

/-- C1 witness: an existing PENDING "Full Day" booking on hall-A for day 3
makes a valid "Morning" request for day 3 fail with the availability error,
leaving the store unchanged; the same request on the booking-free store
succeeds. -/
theorem claim_C1_witness :
    Bookings.createBooking none 0 "bk-2" "BK202601020002" "user-2" Samples.bookingInput
        Samples.storeWithConflict =
      (ActionResult.err "Hall is not available for selected date and time",
        Samples.storeWithConflict) ∧
    ∃ bk, Bookings.createBooking none 0 "bk-2" "BK202601020002" "user-2"
        Samples.bookingInput Samples.storeFree =
      (ActionResult.ok bk,
        { Samples.storeFree with bookings := Samples.storeFree.bookings ++ [bk] }) :=
  ⟨(claim_C1_overlap_rule 0 "bk-2" "BK202601020002" "user-2" Samples.bookingInput
      Samples.storeWithConflict (by decide)).1 (by decide),
   (claim_C1_overlap_rule 0 "bk-2" "BK202601020002" "user-2" Samples.bookingInput
      Samples.storeFree (by decide)).2 (by decide) Samples.hallA (by decide)⟩

/-- C4: `deleteHall` on a hall with at least one CONFIRMED or PENDING
booking fails with the specific conflict message and leaves the store
untouched; with no such booking and an existing hall it succeeds and the
hall is removed. -/
theorem claim_C4_delete_hall (id : String) (s : Store) :
    ((∃ b ∈ s.bookings, b.hallId = id ∧
        (b.status = BookingStatus.CONFIRMED ∨ b.status = BookingStatus.PENDING)) →
      Halls.deleteHall none id s =
        (ActionResult.err "Cannot delete hall with active bookings. Mark as inactive instead.", s)) ∧
    ((¬ ∃ b ∈ s.bookings, b.hallId = id ∧
        (b.status = BookingStatus.CONFIRMED ∨ b.status = BookingStatus.PENDING)) →
      ∀ h0, s.halls.find? (fun x => x.id == id) = some h0 →
        Halls.deleteHall none id s = (ActionResult.ok "Hall deleted successfully",
          { s with halls := s.halls.filter (fun x => !(x.id == id)) }) ∧
        ∀ x ∈ (Halls.deleteHall none id s).2.halls, x.id ≠ id) := by
  have hiff : ∀ b : Booking,
      (b.hallId == id &&
        (b.status == BookingStatus.CONFIRMED || b.status == BookingStatus.PENDING)) = true ↔
      (b.hallId = id ∧
        (b.status = BookingStatus.CONFIRMED ∨ b.status = BookingStatus.PENDING)) := by
    intro b
    simp only [Bool.and_eq_true, beq_iff_eq, status_disjunction_iff]
  constructor
  · rintro ⟨b, hb, hprops⟩
    have hcount : 0 < s.bookings.countP (fun b =>
        b.hallId == id &&
        (b.status == BookingStatus.CONFIRMED || b.status == BookingStatus.PENDING)) := by
      rw [List.countP_pos_iff]
      exact ⟨b, hb, (hiff b).2 hprops⟩
    unfold Halls.deleteHall
    simp only [hcount, if_pos]
  · intro hnone h0 hfind
    have hcount : s.bookings.countP (fun b =>
        b.hallId == id &&
        (b.status == BookingStatus.CONFIRMED || b.status == BookingStatus.PENDING)) = 0 := by
      rw [List.countP_eq_zero]
      intro b hb hpb
      exact hnone ⟨b, hb, (hiff b).1 hpb⟩
    have hdel : Halls.deleteHall none id s = (ActionResult.ok "Hall deleted successfully",
        { s with halls := s.halls.filter (fun x => !(x.id == id)) }) := by
      unfold Halls.deleteHall
      simp only [hcount, hfind, Option.isSome_some, if_true, lt_irrefl, if_false]
    refine ⟨hdel, ?_⟩
    rw [hdel]
    intro x hx
    have := (List.mem_filter.1 hx).2
    simp only [Bool.not_eq_true'] at this
    exact fun he => by simp [he] at this

/-- C4 witness: deleting hall-A fails with the conflict message while the
full-day booking is PENDING, and succeeds on the booking-free store. -/
theorem claim_C4_witness :
    Halls.deleteHall none "hall-A" Samples.storeWithConflict =
      (ActionResult.err "Cannot delete hall with active bookings. Mark as inactive instead.",
        Samples.storeWithConflict) ∧
    Halls.deleteHall none "hall-A" Samples.storeFree =
      (ActionResult.ok "Hall deleted successfully",
        { Samples.storeFree with
            halls := Samples.storeFree.halls.filter (fun x => !(x.id == "hall-A")) }) :=
  ⟨(claim_C4_delete_hall "hall-A" Samples.storeWithConflict).1 (by decide),
   ((claim_C4_delete_hall "hall-A" Samples.storeFree).2 (by decide)
      Samples.hallA (by decide)).1⟩

/-- C5: the conflict query of `createBooking` coincides with the conflict
query of `checkHallAvailability` on every store, hall, date and slot (same
date-range bounds, same status filter, same time-slot disjunction), so
`checkHallAvailability` reports unavailability exactly when `createBooking`
finds a conflict. -/
theorem claim_C5_same_conflict_query (s : Store) (hallId : String)
    (eventDate : Nat) (timeSlot : TimeSlot) :
    Bookings.createBookingAvailability s hallId eventDate timeSlot =
      Halls.checkAvailabilityQuery s hallId eventDate timeSlot ∧
    Halls.checkHallAvailability none hallId eventDate timeSlot s =
      ActionResult.ok
        { isAvailable := (Bookings.createBookingAvailability s hallId eventDate timeSlot).isNone,
          message := if (Bookings.createBookingAvailability s hallId eventDate timeSlot).isNone
            then "Hall is available"
            else "Hall is already booked for this date and time" } := by
  have hwhere : Bookings.availabilityWhere = Halls.availabilityWhere := rfl
  have hq : Bookings.createBookingAvailability s hallId eventDate timeSlot =
      Halls.checkAvailabilityQuery s hallId eventDate timeSlot := by
    unfold Bookings.createBookingAvailability Halls.checkAvailabilityQuery
    rw [setHours_end_shift, hwhere]
  refine ⟨hq, ?_⟩
  rw [hq]
  unfold Halls.checkHallAvailability
  cases hc : Halls.checkAvailabilityQuery s hallId eventDate timeSlot with
  | some b => simp [hc]
  | none => simp [hc]

/-- C7: toggling a hall, a food item, or a theme twice returns the found
entity to its original flag value. -/
theorem claim_C7_toggle_involution (id : String) (s : Store) :
    (∀ h0, s.halls.find? (fun h => h.id == id) = some h0 →
      (Halls.toggleHallStatus none id (Halls.toggleHallStatus none id s).2).1 =
        ActionResult.ok h0) ∧
    (∀ f0, s.foodItems.find? (fun i => i.id == id) = some f0 →
      (FoodItems.toggleFoodItemAvailability none id
        (FoodItems.toggleFoodItemAvailability none id s).2).1 = ActionResult.ok f0) ∧
    (∀ t0, s.themes.find? (fun t => t.id == id) = some t0 →
      (Themes.toggleThemeAvailability none id
        (Themes.toggleThemeAvailability none id s).2).1 = ActionResult.ok t0) := by
  refine ⟨?_, ?_, ?_⟩
  · intro h0 hfind
    have hstore : (Halls.toggleHallStatus none id s).2 =
        { s with halls := s.halls.map (fun h =>
            if h.id == id then { h with isActive := !h0.isActive } else h) } := by
      simp only [Halls.toggleHallStatus, hfind]
    have hp0 : (h0.id == id) = true := List.find?_some (p := fun (h : Hall) => h.id == id) hfind
    have hfind2 : ((s.halls.map (fun h =>
        if h.id == id then { h with isActive := !h0.isActive } else h)).find?
          (fun h => h.id == id)) = some { h0 with isActive := !h0.isActive } := by
      have := find?_map_found (fun h => h.id == id)
        (fun h => if h.id == id then { h with isActive := !h0.isActive } else h)
        s.halls h0 hfind (fun x hx => by simp [hx]) (by simp [hp0])
      simpa [hp0] using this
    rw [hstore]
    simp only [Halls.toggleHallStatus, hfind2, Bool.not_not]
  · intro f0 hfind
    have hstore : (FoodItems.toggleFoodItemAvailability none id s).2 =
        { s with foodItems := s.foodItems.map (fun i =>
            if i.id == id then { i with isAvailable := !f0.isAvailable } else i) } := by
      simp only [FoodItems.toggleFoodItemAvailability, hfind]
    have hp0 : (f0.id == id) = true := List.find?_some (p := fun (i : FoodItem) => i.id == id) hfind
    have hfind2 : ((s.foodItems.map (fun i =>
        if i.id == id then { i with isAvailable := !f0.isAvailable } else i)).find?
          (fun i => i.id == id)) = some { f0 with isAvailable := !f0.isAvailable } := by
      have := find?_map_found (fun (i : FoodItem) => i.id == id)
        (fun i => if i.id == id then { i with isAvailable := !f0.isAvailable } else i)
        s.foodItems f0 hfind (fun x hx => by simp [hx]) (by simp [hp0])
      simpa [hp0] using this
    rw [hstore]
    simp only [FoodItems.toggleFoodItemAvailability, hfind2, Bool.not_not]
  · intro t0 hfind
    have hstore : (Themes.toggleThemeAvailability none id s).2 =
        { s with themes := s.themes.map (fun t =>
            if t.id == id then { t with isAvailable := !t0.isAvailable } else t) } := by
      simp only [Themes.toggleThemeAvailability, hfind]
    have hp0 : (t0.id == id) = true := List.find?_some (p := fun (t : Theme) => t.id == id) hfind
    have hfind2 : ((s.themes.map (fun t =>
        if t.id == id then { t with isAvailable := !t0.isAvailable } else t)).find?
          (fun t => t.id == id)) = some { t0 with isAvailable := !t0.isAvailable } := by
      have := find?_map_found (fun (t : Theme) => t.id == id)
        (fun t => if t.id == id then { t with isAvailable := !t0.isAvailable } else t)
        s.themes t0 hfind (fun x hx => by simp [hx]) (by simp [hp0])
      simpa [hp0] using this
    rw [hstore]
    simp only [Themes.toggleThemeAvailability, hfind2, Bool.not_not]

/-- C7 witness: double-toggling a concrete hall, food item and theme returns
each entity unchanged. -/
theorem claim_C7_witness :
    (Halls.toggleHallStatus none "e-1"
      (Halls.toggleHallStatus none "e-1" Samples.toggleStore).2).1 =
        ActionResult.ok Samples.hallE ∧
    (FoodItems.toggleFoodItemAvailability none "e-1"
      (FoodItems.toggleFoodItemAvailability none "e-1" Samples.toggleStore).2).1 =
        ActionResult.ok Samples.foodE ∧
    (Themes.toggleThemeAvailability none "e-1"
      (Themes.toggleThemeAvailability none "e-1" Samples.toggleStore).2).1 =
        ActionResult.ok Samples.themeE :=
  ⟨(claim_C7_toggle_involution "e-1" Samples.toggleStore).1 Samples.hallE (by decide),
   (claim_C7_toggle_involution "e-1" Samples.toggleStore).2.1 Samples.foodE (by decide),
   (claim_C7_toggle_involution "e-1" Samples.toggleStore).2.2 Samples.themeE (by decide)⟩

/-- C8: `getBookingStats` returns the total booking count, the CONFIRMED and
PENDING counts, and the sum of `totalAmount` over the PAID bookings; the sum
is 0 when no booking is PAID. -/
theorem claim_C8_stats (s : Store) :
    Bookings.getBookingStats none s = ActionResult.ok
      { totalBookings := s.bookings.length,
        confirmedBookings := s.bookings.countP (fun b => b.status == BookingStatus.CONFIRMED),
        pendingBookings := s.bookings.countP (fun b => b.status == BookingStatus.PENDING),
        totalRevenue := ((s.bookings.filter
          (fun b => b.paymentStatus == PaymentStatus.PAID)).map
            (fun b => b.totalAmount)).sum } ∧
    ((∀ b ∈ s.bookings, b.paymentStatus ≠ PaymentStatus.PAID) →
      ∃ st, Bookings.getBookingStats none s = ActionResult.ok st ∧ st.totalRevenue = 0) := by
  have hrev : (Bookings.bookingAggregateSum s.bookings).getD 0 =
      ((s.bookings.filter (fun b => b.paymentStatus == PaymentStatus.PAID)).map
        (fun b => b.totalAmount)).sum := by
    unfold Bookings.bookingAggregateSum
    cases hm : (s.bookings.filter (fun b => b.paymentStatus == PaymentStatus.PAID)).isEmpty with
    | true =>
      rw [List.isEmpty_iff] at hm
      simp [hm]
    | false =>
      simp only [hm, Bool.false_eq_true, if_false, Option.getD_some]
      rw [List.sum_eq_foldl]
  constructor
  · unfold Bookings.getBookingStats
    rw [hrev]
    simp [List.countP_eq_length_filter]
  · intro hnone
    refine ⟨_, rfl, ?_⟩
    show (Bookings.bookingAggregateSum s.bookings).getD 0 = 0
    rw [hrev]
    have : s.bookings.filter (fun b => b.paymentStatus == PaymentStatus.PAID) = [] := by
      rw [List.filter_eq_nil_iff]
      intro b hb
      simpa using hnone b hb
    rw [this]
    simp

/-- C8 witness: on a store whose only booking is unpaid, the revenue
component of the statistics is 0. -/
theorem claim_C8_witness :
    ∃ st, Bookings.getBookingStats none Samples.storeWithConflict = ActionResult.ok st ∧
      st.totalRevenue = 0 :=
  (claim_C8_stats Samples.storeWithConflict).2 (by decide)

/-- C6 counterexample: `createTestHall` of test.ts has no try/catch, so a
throwing store operation propagates to the caller instead of being returned
as a `{success: false}` envelope. -/
theorem claim_C6_counterexample :
    TestActions.createTestHall (some "Database connection lost") "hall-1" 0
      { halls := [], foodItems := [], themes := [], bookings := [] } =
      Except.error "Database connection lost" := rfl

/-- C6 (amended): every exported action of bookings.ts, halls.ts,
food-items.ts and themes.ts catches a throwing store operation and returns
an error envelope, leaving the store unchanged; the two helpers of test.ts
have no try/catch and propagate the exception to the caller. -/
theorem claim_C6_amended_error_boundary (msg : String) (s : Store) (now : Nat)
    (id newId bn userId category : String)
    (hin : Validations.HallInput) (hpatch : Validations.HallPatch)
    (fin0 : Validations.FoodItemInput) (fpatch : Validations.FoodItemPatch)
    (tin : Validations.ThemeInput) (tpatch : Validations.ThemePatch)
    (bin : Validations.BookingInput) (eventDate : Nat) (slot : TimeSlot)
    (bst : BookingStatus) (pst : PaymentStatus) (pid reason : Option String) :
    (∃ e, Halls.getActiveHalls (some msg) s = ActionResult.err e) ∧
    (∃ e, Halls.getHallById (some msg) id s = ActionResult.err e) ∧
    (∃ e, Halls.getAllHalls (some msg) s = ActionResult.err e) ∧
    (∃ e, Halls.createHall (some msg) newId now hin s = (ActionResult.err e, s)) ∧
    (∃ e, Halls.updateHall (some msg) id hpatch s = (ActionResult.err e, s)) ∧
    (∃ e, Halls.deleteHall (some msg) id s = (ActionResult.err e, s)) ∧
    (∃ e, Halls.toggleHallStatus (some msg) id s = (ActionResult.err e, s)) ∧
    (∃ e, Halls.checkHallAvailability (some msg) id eventDate slot s = ActionResult.err e) ∧
    (∃ e, Bookings.createBooking (some msg) now newId bn userId bin s = (ActionResult.err e, s)) ∧
    (∃ e, Bookings.getMyBookings (some msg) userId s = ActionResult.err e) ∧
    (∃ e, Bookings.getBookingById (some msg) id s = ActionResult.err e) ∧
    (∃ e, Bookings.getAllBookings (some msg) s = ActionResult.err e) ∧
    (∃ e, Bookings.updateBookingStatus (some msg) id bst s = (ActionResult.err e, s)) ∧
    (∃ e, Bookings.updatePaymentStatus (some msg) id pst pid s = (ActionResult.err e, s)) ∧
    (∃ e, Bookings.cancelBooking (some msg) id reason s = (ActionResult.err e, s)) ∧
    (∃ e, Bookings.getBookingStats (some msg) s = ActionResult.err e) ∧
    (∃ e, FoodItems.getAvailableFoodItems (some msg) s = ActionResult.err e) ∧
    (∃ e, FoodItems.getAllFoodItems (some msg) s = ActionResult.err e) ∧
    (∃ e, FoodItems.getFoodItemsByCategory (some msg) category s = ActionResult.err e) ∧
    (∃ e, FoodItems.createFoodItem (some msg) newId fin0 s = (ActionResult.err e, s)) ∧
    (∃ e, FoodItems.updateFoodItem (some msg) id fpatch s = (ActionResult.err e, s)) ∧
    (∃ e, FoodItems.deleteFoodItem (some msg) id s = (ActionResult.err e, s)) ∧
    (∃ e, FoodItems.toggleFoodItemAvailability (some msg) id s = (ActionResult.err e, s)) ∧
    (∃ e, Themes.getAvailableThemes (some msg) s = ActionResult.err e) ∧
    (∃ e, Themes.getAllThemes (some msg) s = ActionResult.err e) ∧
    (∃ e, Themes.getThemeById (some msg) id s = ActionResult.err e) ∧
    (∃ e, Themes.createTheme (some msg) newId tin s = (ActionResult.err e, s)) ∧
    (∃ e, Themes.updateTheme (some msg) id tpatch s = (ActionResult.err e, s)) ∧
    (∃ e, Themes.deleteTheme (some msg) id s = (ActionResult.err e, s)) ∧
    (∃ e, Themes.toggleThemeAvailability (some msg) id s = (ActionResult.err e, s)) ∧
    TestActions.createTestHall (some msg) newId now s = Except.error msg ∧
    TestActions.getAllHalls (some msg) s = Except.error msg := by
  refine ⟨⟨_, rfl⟩, ⟨_, rfl⟩, ⟨_, rfl⟩, ?_, ?_, ⟨_, rfl⟩, ⟨_, rfl⟩, ⟨_, rfl⟩,
    ?_, ⟨_, rfl⟩, ⟨_, rfl⟩, ⟨_, rfl⟩, ⟨_, rfl⟩, ⟨_, rfl⟩, ⟨_, rfl⟩, ⟨_, rfl⟩,
    ⟨_, rfl⟩, ⟨_, rfl⟩, ⟨_, rfl⟩, ?_, ?_, ⟨_, rfl⟩, ⟨_, rfl⟩,
    ⟨_, rfl⟩, ⟨_, rfl⟩, ⟨_, rfl⟩, ?_, ?_, ⟨_, rfl⟩, ⟨_, rfl⟩, rfl, rfl⟩
  · cases hc : Validations.hallSchemaCheck hin with
    | true => exact ⟨msg, by simp [Halls.createHall, hc]⟩
    | false => exact ⟨"Invalid input", by simp [Halls.createHall, hc]⟩
  · cases hc : Validations.hallPatchCheck hpatch with
    | true => exact ⟨msg, by simp [Halls.updateHall, hc]⟩
    | false => exact ⟨"Invalid input", by simp [Halls.updateHall, hc]⟩
  · cases hc : Validations.bookingSchemaCheck now bin with
    | true => exact ⟨msg, by simp [Bookings.createBooking, hc]⟩
    | false => exact ⟨"Invalid input", by simp [Bookings.createBooking, hc]⟩
  · cases hc : Validations.foodItemSchemaCheck fin0 with
    | true => exact ⟨msg, by simp [FoodItems.createFoodItem, hc]⟩
    | false => exact ⟨"Invalid input", by simp [FoodItems.createFoodItem, hc]⟩
  · cases hc : Validations.foodItemPatchCheck fpatch with
    | true => exact ⟨msg, by simp [FoodItems.updateFoodItem, hc]⟩
    | false => exact ⟨"Invalid input", by simp [FoodItems.updateFoodItem, hc]⟩
  · cases hc : Validations.themeSchemaCheck tin with
    | true => exact ⟨msg, by simp [Themes.createTheme, hc]⟩
    | false => exact ⟨"Invalid input", by simp [Themes.createTheme, hc]⟩
  · cases hc : Validations.themePatchCheck tpatch with
    | true => exact ⟨msg, by simp [Themes.updateTheme, hc]⟩
    | false => exact ⟨"Invalid input", by simp [Themes.updateTheme, hc]⟩

end HallBooking
